import Mathlib

/-!
Shallow embedding of the rmcp-i3 tool-dispatch adapter (src/lib.rs).

Each MCP tool handler in the source performs, in order: connect to the i3
IPC socket (fallible), build a native command string, run it over IPC
(fallible at the transport level), and either normalize the per-sub-command
result list into a single message or serialize structured data verbatim.

The external collaborators (the i3 IPC client and the MCP layer) are
represented by their interfaces: the connection attempt as an
`Except String Unit`, the IPC `run_command` call as a function from the
command string to `Except String (List NativeCommandResult)`, and the
serde serialization of query results as a function parameter.  All pure
adapter logic (command construction, the success fold, error collection,
message formatting) is translated line by line from src/lib.rs.
-/

namespace RmcpI3

/-- One native command's execution outcome, as reported by the i3 IPC
client per sub-command (spec §3: success flag, optional error text;
mirrors tokio_i3ipc's reply type consumed at src/lib.rs). -/
structure NativeCommandResult where
  success : Bool
  error : Option String
deriving DecidableEq, Repr

/-- An MCP content item.  The server only ever constructs `Content.text`;
the `image` constructor stands for the non-textual variants the rmcp
`Content` type also offers, so that "the returned item is textual" is a
real statement. -/
inductive Content where
  | text : String → Content
  | image : String → Content
deriving DecidableEq, Repr

/-- The result of a tool call, mirroring rmcp's `CallToolResult`:
a list of content items plus the error flag. -/
structure CallToolResult where
  content : List Content
  isError : Bool
deriving DecidableEq, Repr

/-- `CallToolResult::success` from rmcp: wraps content with the error flag
cleared. -/
def CallToolResult.success (c : List Content) : CallToolResult :=
  ⟨c, false⟩

/-- An adapter-level (protocol-surfaced) error, mirroring rmcp's
`ErrorData` as used via `McpError::internal_error`. -/
structure McpError where
  message : String
deriving DecidableEq, Repr

/-- `McpError::internal_error(msg, None)` as used throughout src/lib.rs. -/
def McpError.internal_error (msg : String) : McpError :=
  ⟨msg⟩

/-- `I3Server::connect` (src/lib.rs lines 38-42): a failed socket connect
is mapped to an adapter-level error with the fixed message format. -/
def connect (conn : Except String Unit) : Except McpError Unit :=
  match conn with
  | .ok u => .ok u
  | .error e => .error (McpError.internal_error ("Failed to connect to i3: " ++ e))

/-- The success fold each command-issuing handler applies:
`results.iter().all(|r| r.success)` (src/lib.rs lines 162, 195, 228, 282,
311, 343, 372). -/
def allSuccess (results : List NativeCommandResult) : Bool :=
  results.all (fun r => r.success)

/-- The error collection each command-issuing handler applies on failure:
`results.iter().filter_map(|r| r.error.clone()).collect()` (src/lib.rs
lines 169-172 and the parallel blocks). -/
def collectErrors (results : List NativeCommandResult) : List String :=
  results.filterMap (fun r => r.error)

/-- The error collection as the spec's words describe it, for comparison
with `collectErrors`: the non-empty error texts of the failing
sub-results only. -/
def collectErrorsSpec (results : List NativeCommandResult) : List String :=
  ((results.filter (fun r => !r.success)).filterMap (fun r => r.error)).filter
    (fun s => s ≠ "")

/-- `format!("workspace {}", params.workspace)` (src/lib.rs line 155). -/
def switch_workspace_command (workspace : String) : String :=
  "workspace " ++ workspace

/-- `format!("{} focus", params.criteria)` (src/lib.rs line 189). -/
def focus_window_command (criteria : String) : String :=
  criteria ++ " focus"

/-- `format!("move container to workspace {}", params.workspace)`
(src/lib.rs line 222). -/
def move_to_workspace_command (workspace : String) : String :=
  "move container to workspace " ++ workspace

/-- `format!("exec {}", params.command)` (src/lib.rs line 276). -/
def exec_command (command : String) : String :=
  "exec " ++ command

/-- `format!("{} kill", params.criteria)` (src/lib.rs line 337). -/
def kill_window_command (criteria : String) : String :=
  criteria ++ " kill"

/-- `switch_workspace` handler (src/lib.rs lines 148-178). -/
def switch_workspace (workspace : String) (conn : Except String Unit)
    (run : String → Except String (List NativeCommandResult)) :
    Except McpError CallToolResult :=
  match connect conn with
  | .error e => .error e
  | .ok _ =>
    match run (switch_workspace_command workspace) with
    | .error e => .error (McpError.internal_error ("Failed to switch workspace: " ++ e))
    | .ok results =>
      if allSuccess results then
        .ok (CallToolResult.success
          [Content.text ("Switched to workspace '" ++ workspace ++ "'")])
      else
        .ok (CallToolResult.success
          [Content.text ("Failed to switch workspace: " ++
            String.intercalate ", " (collectErrors results))])

/-- `focus_window` handler (src/lib.rs lines 182-211). -/
def focus_window (criteria : String) (conn : Except String Unit)
    (run : String → Except String (List NativeCommandResult)) :
    Except McpError CallToolResult :=
  match connect conn with
  | .error e => .error e
  | .ok _ =>
    match run (focus_window_command criteria) with
    | .error e => .error (McpError.internal_error ("Failed to focus window: " ++ e))
    | .ok results =>
      if allSuccess results then
        .ok (CallToolResult.success
          [Content.text ("Focused window matching '" ++ criteria ++ "'")])
      else
        .ok (CallToolResult.success
          [Content.text ("Failed to focus window: " ++
            String.intercalate ", " (collectErrors results))])

/-- `move_to_workspace` handler (src/lib.rs lines 215-244). -/
def move_to_workspace (workspace : String) (conn : Except String Unit)
    (run : String → Except String (List NativeCommandResult)) :
    Except McpError CallToolResult :=
  match connect conn with
  | .error e => .error e
  | .ok _ =>
    match run (move_to_workspace_command workspace) with
    | .error e => .error (McpError.internal_error ("Failed to move window: " ++ e))
    | .ok results =>
      if allSuccess results then
        .ok (CallToolResult.success
          [Content.text ("Moved window to workspace '" ++ workspace ++ "'")])
      else
        .ok (CallToolResult.success
          [Content.text ("Failed to move window: " ++
            String.intercalate ", " (collectErrors results))])

/-- `exec` handler (src/lib.rs lines 269-298). -/
def exec (command : String) (conn : Except String Unit)
    (run : String → Except String (List NativeCommandResult)) :
    Except McpError CallToolResult :=
  match connect conn with
  | .error e => .error e
  | .ok _ =>
    match run (exec_command command) with
    | .error e => .error (McpError.internal_error ("Failed to exec: " ++ e))
    | .ok results =>
      if allSuccess results then
        .ok (CallToolResult.success [Content.text ("Launched '" ++ command ++ "'")])
      else
        .ok (CallToolResult.success
          [Content.text ("Failed to launch: " ++
            String.intercalate ", " (collectErrors results))])

/-- `kill` handler (src/lib.rs lines 302-326): the native command is the
fixed string `kill`. -/
def kill (conn : Except String Unit)
    (run : String → Except String (List NativeCommandResult)) :
    Except McpError CallToolResult :=
  match connect conn with
  | .error e => .error e
  | .ok _ =>
    match run "kill" with
    | .error e => .error (McpError.internal_error ("Failed to kill window: " ++ e))
    | .ok results =>
      if allSuccess results then
        .ok (CallToolResult.success [Content.text "Killed focused window"])
      else
        .ok (CallToolResult.success
          [Content.text ("Failed to kill window: " ++
            String.intercalate ", " (collectErrors results))])

/-- `kill_window` handler (src/lib.rs lines 330-359). -/
def kill_window (criteria : String) (conn : Except String Unit)
    (run : String → Except String (List NativeCommandResult)) :
    Except McpError CallToolResult :=
  match connect conn with
  | .error e => .error e
  | .ok _ =>
    match run (kill_window_command criteria) with
    | .error e => .error (McpError.internal_error ("Failed to kill window: " ++ e))
    | .ok results =>
      if allSuccess results then
        .ok (CallToolResult.success
          [Content.text ("Killed window matching '" ++ criteria ++ "'")])
      else
        .ok (CallToolResult.success
          [Content.text ("Failed to kill window: " ++
            String.intercalate ", " (collectErrors results))])

/-- `fullscreen` handler (src/lib.rs lines 363-387): the native command is
the fixed string `fullscreen toggle`. -/
def fullscreen (conn : Except String Unit)
    (run : String → Except String (List NativeCommandResult)) :
    Except McpError CallToolResult :=
  match connect conn with
  | .error e => .error e
  | .ok _ =>
    match run "fullscreen toggle" with
    | .error e => .error (McpError.internal_error ("Failed to toggle fullscreen: " ++ e))
    | .ok results =>
      if allSuccess results then
        .ok (CallToolResult.success [Content.text "Toggled fullscreen"])
      else
        .ok (CallToolResult.success
          [Content.text ("Failed to toggle fullscreen: " ++
            String.intercalate ", " (collectErrors results))])

/-- `run_command` handler (src/lib.rs lines 248-265): the raw-command
escape hatch.  The command string is passed through verbatim, and the full
result list is handed unmodified to the serializer, whose output becomes
the single text content; serialization failure is an adapter-level
error. -/
def run_command (command : String) (conn : Except String Unit)
    (run : String → Except String (List NativeCommandResult))
    (serialize : List NativeCommandResult → Except String String) :
    Except McpError CallToolResult :=
  match connect conn with
  | .error e => .error e
  | .ok _ =>
    match run command with
    | .error e => .error (McpError.internal_error ("Failed to run command: " ++ e))
    | .ok results =>
      match serialize results with
      | .error e => .error (McpError.internal_error ("Failed to serialize results: " ++ e))
      | .ok json => .ok (CallToolResult.success [Content.text json])

/-- Modelled from the spec: a workspace snapshot as returned by the IPC
client (spec §3: number, name, visible, focused, urgent, output); the
concrete type lives in the external tokio_i3ipc crate, not under src/. -/
structure Workspace where
  num : Int
  name : String
  visible : Bool
  focused : Bool
  urgent : Bool
  output : String
deriving DecidableEq, Repr

/-- Modelled from the spec: the recursive container/window layout tree
returned by the IPC client (spec §3); the concrete type lives in the
external tokio_i3ipc crate, not under src/. -/
inductive Node where
  | mk : String → List Node → Node
deriving Repr

/-- `get_workspaces` handler (src/lib.rs lines 111-126): query, serialize,
return one text content item. -/
def get_workspaces (conn : Except String Unit)
    (fetch : Except String (List Workspace))
    (serialize : List Workspace → Except String String) :
    Except McpError CallToolResult :=
  match connect conn with
  | .error e => .error e
  | .ok _ =>
    match fetch with
    | .error e => .error (McpError.internal_error ("Failed to get workspaces: " ++ e))
    | .ok workspaces =>
      match serialize workspaces with
      | .error e => .error (McpError.internal_error ("Failed to serialize workspaces: " ++ e))
      | .ok json => .ok (CallToolResult.success [Content.text json])

/-- `get_tree` handler (src/lib.rs lines 130-144). -/
def get_tree (conn : Except String Unit)
    (fetch : Except String Node)
    (serialize : Node → Except String String) :
    Except McpError CallToolResult :=
  match connect conn with
  | .error e => .error e
  | .ok _ =>
    match fetch with
    | .error e => .error (McpError.internal_error ("Failed to get tree: " ++ e))
    | .ok tree =>
      match serialize tree with
      | .error e => .error (McpError.internal_error ("Failed to serialize tree: " ++ e))
      | .ok json => .ok (CallToolResult.success [Content.text json])

/-- A structural JSON value, the target of serialization. -/
inductive Json where
  | null : Json
  | bool : Bool → Json
  | str : String → Json
  | arr : List Json → Json
  | obj : List (String × Json) → Json
deriving Repr

/-- Modelled from the spec: the serde serialization of one
NativeCommandResult at the structural JSON level (the concrete derive
lives in the external IPC-client crate, not under src/); the spec requires
that every sub-result's success flag and error text, if present, be
preserved. -/
def resultToJson (r : NativeCommandResult) : Json :=
  Json.obj [("success", Json.bool r.success),
            ("error", match r.error with
                      | none => Json.null
                      | some s => Json.str s)]

/-- Modelled from the spec: the serde serialization of the full result
list, in order. -/
def resultsToJson (rs : List NativeCommandResult) : Json :=
  Json.arr (rs.map resultToJson)

/-- Decoder for one serialized sub-result, inverse to `resultToJson`. -/
def resultOfJson : Json → Option NativeCommandResult
  | Json.obj [("success", Json.bool b), ("error", Json.null)] => some ⟨b, none⟩
  | Json.obj [("success", Json.bool b), ("error", Json.str s)] => some ⟨b, some s⟩
  | _ => none

/-- Decoder for a serialized result list, elementwise. -/
def resultsOfJsonList : List Json → Option (List NativeCommandResult)
  | [] => some []
  | j :: js =>
    match resultOfJson j, resultsOfJsonList js with
    | some r, some rs => some (r :: rs)
    | _, _ => none

/-- Decoder for the serialized result list, inverse to `resultsToJson`. -/
def resultsOfJson : Json → Option (List NativeCommandResult)
  | Json.arr js => resultsOfJsonList js
  | _ => none

/-- Auxiliary: a returned `CallToolResult` equal to a singleton text
success wrapper has a single text content item. -/
theorem content_shape_aux {r : CallToolResult} {s : String}
    (h : CallToolResult.success [Content.text s] = r) :
    ∃ t, r.content = [Content.text t] :=
  ⟨s, by rw [← h]; rfl⟩

/-- C2: the success fold `allSuccess` applied by every normalized command
operation reports overall success iff every element of the native result
list reports success; in particular the empty list yields success. -/
theorem normalizer_fold_correct :
    (∀ rs : List NativeCommandResult,
      allSuccess rs = true ↔ ∀ r ∈ rs, r.success = true) ∧
    allSuccess [] = true := by
  constructor
  · intro rs
    simp [allSuccess, List.all_eq_true]
  · rfl

/-- Witness for `normalizer_fold_correct` at a concrete list. -/
theorem normalizer_fold_correct_witness :
    allSuccess [⟨true, none⟩] = true :=
  (normalizer_fold_correct.1 [⟨true, none⟩]).mpr (by decide)

/-- C1 counterexample: on the list with a succeeding sub-result carrying
error text "e1" and a failing sub-result carrying the empty error text,
the code's collection (`filter_map` over all sub-results) yields
["e1", ""] and the failure message embeds "e1, ", while the claim's
collection (non-empty error texts of failing sub-results only) is empty
and would prescribe an empty joined string — so the claim as stated is
false on the code. -/
theorem error_collection_counterexample :
    switch_workspace "1" (.ok ())
      (fun _ => .ok [⟨true, some "e1"⟩, ⟨false, some ""⟩]) =
      .ok (CallToolResult.success
        [Content.text ("Failed to switch workspace: " ++
          String.intercalate ", "
            (collectErrors [⟨true, some "e1"⟩, ⟨false, some ""⟩]))]) ∧
    collectErrors [⟨true, some "e1"⟩, ⟨false, some ""⟩] = ["e1", ""] ∧
    collectErrorsSpec [⟨true, some "e1"⟩, ⟨false, some ""⟩] = [] ∧
    String.intercalate ", " ["e1", ""] ≠
      String.intercalate ", " ([] : List String) :=
  ⟨rfl, rfl, rfl, by decide⟩

/-- C1 amended: for every normalized command operation and every native
result list with at least one failing sub-result, the failure message
embeds exactly the present error texts of ALL sub-results (succeeding
ones included, empty texts included), joined by ", " in their original
order; sub-results without an error text contribute nothing. -/
theorem error_collection_amended :
    (∀ ws rs, allSuccess rs = false →
      switch_workspace ws (.ok ()) (fun _ => .ok rs) =
        .ok (CallToolResult.success
          [Content.text ("Failed to switch workspace: " ++
            String.intercalate ", " (collectErrors rs))])) ∧
    (∀ c rs, allSuccess rs = false →
      focus_window c (.ok ()) (fun _ => .ok rs) =
        .ok (CallToolResult.success
          [Content.text ("Failed to focus window: " ++
            String.intercalate ", " (collectErrors rs))])) ∧
    (∀ ws rs, allSuccess rs = false →
      move_to_workspace ws (.ok ()) (fun _ => .ok rs) =
        .ok (CallToolResult.success
          [Content.text ("Failed to move window: " ++
            String.intercalate ", " (collectErrors rs))])) ∧
    (∀ cmd rs, allSuccess rs = false →
      exec cmd (.ok ()) (fun _ => .ok rs) =
        .ok (CallToolResult.success
          [Content.text ("Failed to launch: " ++
            String.intercalate ", " (collectErrors rs))])) ∧
    (∀ rs, allSuccess rs = false →
      kill (.ok ()) (fun _ => .ok rs) =
        .ok (CallToolResult.success
          [Content.text ("Failed to kill window: " ++
            String.intercalate ", " (collectErrors rs))])) ∧
    (∀ c rs, allSuccess rs = false →
      kill_window c (.ok ()) (fun _ => .ok rs) =
        .ok (CallToolResult.success
          [Content.text ("Failed to kill window: " ++
            String.intercalate ", " (collectErrors rs))])) ∧
    (∀ rs, allSuccess rs = false →
      fullscreen (.ok ()) (fun _ => .ok rs) =
        .ok (CallToolResult.success
          [Content.text ("Failed to toggle fullscreen: " ++
            String.intercalate ", " (collectErrors rs))])) := by
  refine ⟨?_, ?_, ?_, ?_, ?_, ?_, ?_⟩
  · intro ws rs h; simp [switch_workspace, connect, h]
  · intro c rs h; simp [focus_window, connect, h]
  · intro ws rs h; simp [move_to_workspace, connect, h]
  · intro cmd rs h; simp [exec, connect, h]
  · intro rs h; simp [kill, connect, h]
  · intro c rs h; simp [kill_window, connect, h]
  · intro rs h; simp [fullscreen, connect, h]

/-- Witness for `error_collection_amended` at a concrete failing list. -/
theorem error_collection_amended_witness :
    switch_workspace "1" (.ok ())
      (fun _ => .ok [⟨false, some "a"⟩, ⟨false, none⟩, ⟨false, some "b"⟩]) =
      .ok (CallToolResult.success
        [Content.text ("Failed to switch workspace: " ++
          String.intercalate ", "
            (collectErrors [⟨false, some "a"⟩, ⟨false, none⟩, ⟨false, some "b"⟩]))]) :=
  error_collection_amended.1 "1"
    [⟨false, some "a"⟩, ⟨false, none⟩, ⟨false, some "b"⟩] (by decide)

/-- C3: for every operation a failed socket connect yields an
adapter-level error (never successful content), while a native command
failure — some sub-result failing — yields successful content with the
error flag cleared (never a protocol-level error). -/
theorem error_tier_separation :
    (∀ e fetch ser, get_workspaces (.error e) fetch ser =
      .error (McpError.internal_error ("Failed to connect to i3: " ++ e))) ∧
    (∀ e fetch ser, get_tree (.error e) fetch ser =
      .error (McpError.internal_error ("Failed to connect to i3: " ++ e))) ∧
    (∀ e ws run, switch_workspace ws (.error e) run =
      .error (McpError.internal_error ("Failed to connect to i3: " ++ e))) ∧
    (∀ e c run, focus_window c (.error e) run =
      .error (McpError.internal_error ("Failed to connect to i3: " ++ e))) ∧
    (∀ e ws run, move_to_workspace ws (.error e) run =
      .error (McpError.internal_error ("Failed to connect to i3: " ++ e))) ∧
    (∀ e cmd run ser, run_command cmd (.error e) run ser =
      .error (McpError.internal_error ("Failed to connect to i3: " ++ e))) ∧
    (∀ e cmd run, exec cmd (.error e) run =
      .error (McpError.internal_error ("Failed to connect to i3: " ++ e))) ∧
    (∀ e run, kill (.error e) run =
      .error (McpError.internal_error ("Failed to connect to i3: " ++ e))) ∧
    (∀ e c run, kill_window c (.error e) run =
      .error (McpError.internal_error ("Failed to connect to i3: " ++ e))) ∧
    (∀ e run, fullscreen (.error e) run =
      .error (McpError.internal_error ("Failed to connect to i3: " ++ e))) ∧
    (∀ ws rs, allSuccess rs = false → ∃ msg,
      switch_workspace ws (.ok ()) (fun _ => .ok rs) =
        .ok ⟨[Content.text msg], false⟩) ∧
    (∀ c rs, allSuccess rs = false → ∃ msg,
      focus_window c (.ok ()) (fun _ => .ok rs) =
        .ok ⟨[Content.text msg], false⟩) ∧
    (∀ ws rs, allSuccess rs = false → ∃ msg,
      move_to_workspace ws (.ok ()) (fun _ => .ok rs) =
        .ok ⟨[Content.text msg], false⟩) ∧
    (∀ cmd rs, allSuccess rs = false → ∃ msg,
      exec cmd (.ok ()) (fun _ => .ok rs) =
        .ok ⟨[Content.text msg], false⟩) ∧
    (∀ rs, allSuccess rs = false → ∃ msg,
      kill (.ok ()) (fun _ => .ok rs) = .ok ⟨[Content.text msg], false⟩) ∧
    (∀ c rs, allSuccess rs = false → ∃ msg,
      kill_window c (.ok ()) (fun _ => .ok rs) =
        .ok ⟨[Content.text msg], false⟩) ∧
    (∀ rs, allSuccess rs = false → ∃ msg,
      fullscreen (.ok ()) (fun _ => .ok rs) =
        .ok ⟨[Content.text msg], false⟩) ∧
    (∀ cmd rs s ser, allSuccess rs = false → ser rs = .ok s →
      run_command cmd (.ok ()) (fun _ => .ok rs) ser =
        .ok ⟨[Content.text s], false⟩) := by
  refine ⟨fun _ _ _ => rfl, fun _ _ _ => rfl, fun _ _ _ => rfl, fun _ _ _ => rfl,
    fun _ _ _ => rfl, fun _ _ _ _ => rfl, fun _ _ _ => rfl, fun _ _ => rfl,
    fun _ _ _ => rfl, fun _ _ => rfl, ?_, ?_, ?_, ?_, ?_, ?_, ?_, ?_⟩
  · intro ws rs h
    exact ⟨"Failed to switch workspace: " ++ String.intercalate ", " (collectErrors rs),
      by simp [switch_workspace, connect, h, CallToolResult.success]⟩
  · intro c rs h
    exact ⟨"Failed to focus window: " ++ String.intercalate ", " (collectErrors rs),
      by simp [focus_window, connect, h, CallToolResult.success]⟩
  · intro ws rs h
    exact ⟨"Failed to move window: " ++ String.intercalate ", " (collectErrors rs),
      by simp [move_to_workspace, connect, h, CallToolResult.success]⟩
  · intro cmd rs h
    exact ⟨"Failed to launch: " ++ String.intercalate ", " (collectErrors rs),
      by simp [exec, connect, h, CallToolResult.success]⟩
  · intro rs h
    exact ⟨"Failed to kill window: " ++ String.intercalate ", " (collectErrors rs),
      by simp [kill, connect, h, CallToolResult.success]⟩
  · intro c rs h
    exact ⟨"Failed to kill window: " ++ String.intercalate ", " (collectErrors rs),
      by simp [kill_window, connect, h, CallToolResult.success]⟩
  · intro rs h
    exact ⟨"Failed to toggle fullscreen: " ++ String.intercalate ", " (collectErrors rs),
      by simp [fullscreen, connect, h, CallToolResult.success]⟩
  · intro cmd rs s ser h hs
    simp [run_command, connect, hs, CallToolResult.success]

/-- Witness for `error_tier_separation` at concrete inputs. -/
theorem error_tier_separation_witness :
    ∃ msg, kill_window "[class=\"x\"]" (.ok ())
      (fun _ => .ok [⟨false, some "no match"⟩]) =
      .ok ⟨[Content.text msg], false⟩ :=
  error_tier_separation.2.2.2.2.2.2.2.2.2.2.2.2.2.2.2.1 "[class=\"x\"]"
    [⟨false, some "no match"⟩] (by decide)

/-- C4: command-string construction is exact — switch-workspace with
"web" issues `workspace web`, focus with `[class="Firefox"]` issues
`[class="Firefox"] focus`, exec with `firefox` issues `exec firefox` —
and each operation consults its IPC runner only at that exact string. -/
theorem command_construction_exact :
    switch_workspace_command "web" = "workspace web" ∧
    focus_window_command "[class=\"Firefox\"]" = "[class=\"Firefox\"] focus" ∧
    exec_command "firefox" = "exec firefox" ∧
    (∀ conn run, switch_workspace "web" conn run =
      switch_workspace "web" conn (fun _ => run "workspace web")) ∧
    (∀ conn run, focus_window "[class=\"Firefox\"]" conn run =
      focus_window "[class=\"Firefox\"]" conn
        (fun _ => run "[class=\"Firefox\"] focus")) ∧
    (∀ conn run, exec "firefox" conn run =
      exec "firefox" conn (fun _ => run "exec firefox")) :=
  ⟨rfl, rfl, rfl, fun _ _ => rfl, fun _ _ => rfl, fun _ _ => rfl⟩

/-- C5 counterexample: an empty parameter is NOT rejected — switch
workspace with "" issues the native command `workspace ` (trailing
space) and returns ordinary normalized content, and focus-window with ""
issues ` focus`; no adapter-level rejection occurs. -/
theorem empty_param_not_rejected :
    switch_workspace "" (.ok ()) (fun _ => .ok [⟨true, none⟩]) =
      .ok (CallToolResult.success [Content.text "Switched to workspace ''"]) ∧
    switch_workspace_command "" = "workspace " ∧
    focus_window "" (.ok ()) (fun _ => .ok [⟨true, none⟩]) =
      .ok (CallToolResult.success [Content.text "Focused window matching ''"]) ∧
    focus_window_command "" = " focus" :=
  ⟨rfl, rfl, rfl, rfl⟩

/-- C5 amended: the adapter performs no emptiness validation — an empty
workspace identifier or criteria string is passed straight through into
the native command (`workspace ` resp. ` focus`), and the operation
behaves on "" exactly as on any other parameter value. -/
theorem empty_param_passthrough :
    switch_workspace_command "" = "workspace " ∧
    focus_window_command "" = " focus" ∧
    (∀ conn run, switch_workspace "" conn run =
      switch_workspace "" conn (fun _ => run "workspace ")) ∧
    (∀ conn run, focus_window "" conn run =
      focus_window "" conn (fun _ => run " focus")) ∧
    (∀ rs, switch_workspace "" (.ok ()) (fun _ => .ok rs) =
      if allSuccess rs then
        .ok (CallToolResult.success [Content.text "Switched to workspace ''"])
      else
        .ok (CallToolResult.success
          [Content.text ("Failed to switch workspace: " ++
            String.intercalate ", " (collectErrors rs))])) :=
  ⟨rfl, rfl, fun _ _ => rfl, fun _ _ => rfl, fun _ => rfl⟩

/-- Auxiliary: one serialized sub-result decodes back to itself. -/
theorem resultOfJson_resultToJson (r : NativeCommandResult) :
    resultOfJson (resultToJson r) = some r := by
  cases r with
  | mk s e => cases e <;> rfl

/-- C6: the raw-command operation returns the serializer's output on the
unmodified full result list as its single text content (no
normalization), and the modelled serialization is lossless — decoding the
serialized list returns the original list, preserving every success flag
and error text in order. -/
theorem run_command_passthrough :
    (∀ cmd rs s (serialize : List NativeCommandResult → Except String String),
      serialize rs = .ok s →
      run_command cmd (.ok ()) (fun _ => .ok rs) serialize =
        .ok (CallToolResult.success [Content.text s])) ∧
    (∀ rs, resultsOfJson (resultsToJson rs) = some rs) := by
  constructor
  · intro cmd rs s serialize h
    simp [run_command, connect, h]
  · intro rs
    rw [resultsToJson, resultsOfJson]
    induction rs with
    | nil => rfl
    | cons r rs ih =>
      rw [List.map_cons, resultsOfJsonList, resultOfJson_resultToJson, ih]

/-- Witness for `run_command_passthrough` at a concrete failing result
list and serializer. -/
theorem run_command_passthrough_witness :
    run_command "border toggle" (.ok ())
      (fun _ => .ok [⟨false, some "err"⟩])
      (fun _ => .ok "serialized") =
      .ok (CallToolResult.success [Content.text "serialized"]) :=
  run_command_passthrough.1 "border toggle" [⟨false, some "err"⟩]
    "serialized" (fun _ => .ok "serialized") rfl

/-- C7: switch-workspace with identifier "2" and an all-success native
reply returns successful content with message `Switched to workspace '2'`. -/
theorem switch_workspace_success_scenario :
    ∀ rs, (∀ r ∈ rs, r.success = true) →
      switch_workspace "2" (.ok ()) (fun _ => .ok rs) =
        .ok (CallToolResult.success
          [Content.text "Switched to workspace '2'"]) := by
  intro rs h
  have hs : allSuccess rs = true := by
    simp [allSuccess, List.all_eq_true]
    exact h
  simp [switch_workspace, connect, hs]

/-- Witness for `switch_workspace_success_scenario` at a concrete
all-success reply. -/
theorem switch_workspace_success_scenario_witness :
    switch_workspace "2" (.ok ()) (fun _ => .ok [⟨true, none⟩]) =
      .ok (CallToolResult.success [Content.text "Switched to workspace '2'"]) :=
  switch_workspace_success_scenario [⟨true, none⟩] (by decide)

/-- C8: kill-window with criteria `[title="nonexistent"]` and a single
failing sub-result carrying error text "No matching window" returns
successful content with message
`Failed to kill window: No matching window`. -/
theorem kill_window_failure_scenario :
    kill_window "[title=\"nonexistent\"]" (.ok ())
      (fun _ => .ok [⟨false, some "No matching window"⟩]) =
      .ok (CallToolResult.success
        [Content.text "Failed to kill window: No matching window"]) :=
  rfl

/-- C9: every operation that returns successfully returns exactly one
content item, and that item is a text block; no operation ever returns
zero or multiple content items, or a non-textual item. -/
theorem single_text_content :
    (∀ conn fetch ser r, get_workspaces conn fetch ser = .ok r →
      ∃ s, r.content = [Content.text s]) ∧
    (∀ conn fetch ser r, get_tree conn fetch ser = .ok r →
      ∃ s, r.content = [Content.text s]) ∧
    (∀ ws conn run r, switch_workspace ws conn run = .ok r →
      ∃ s, r.content = [Content.text s]) ∧
    (∀ c conn run r, focus_window c conn run = .ok r →
      ∃ s, r.content = [Content.text s]) ∧
    (∀ ws conn run r, move_to_workspace ws conn run = .ok r →
      ∃ s, r.content = [Content.text s]) ∧
    (∀ cmd conn run ser r, run_command cmd conn run ser = .ok r →
      ∃ s, r.content = [Content.text s]) ∧
    (∀ cmd conn run r, exec cmd conn run = .ok r →
      ∃ s, r.content = [Content.text s]) ∧
    (∀ conn run r, kill conn run = .ok r →
      ∃ s, r.content = [Content.text s]) ∧
    (∀ c conn run r, kill_window c conn run = .ok r →
      ∃ s, r.content = [Content.text s]) ∧
    (∀ conn run r, fullscreen conn run = .ok r →
      ∃ s, r.content = [Content.text s]) := by
  refine ⟨?_, ?_, ?_, ?_, ?_, ?_, ?_, ?_, ?_, ?_⟩
  · intro conn fetch ser r h
    rcases conn with e | u
    · exact Except.noConfusion h
    rcases fetch with e | ws
    · exact Except.noConfusion h
    rcases hs : ser ws with e | j
    all_goals rw [get_workspaces] at h
    all_goals simp only [connect, hs] at h
    · exact Except.noConfusion h
    · exact content_shape_aux (Except.ok.inj h)
  · intro conn fetch ser r h
    rcases conn with e | u
    · exact Except.noConfusion h
    rcases fetch with e | t
    · exact Except.noConfusion h
    rcases hs : ser t with e | j
    all_goals rw [get_tree] at h
    all_goals simp only [connect, hs] at h
    · exact Except.noConfusion h
    · exact content_shape_aux (Except.ok.inj h)
  · intro ws conn run r h
    rcases conn with e | u
    · exact Except.noConfusion h
    rcases hr : run (switch_workspace_command ws) with e | rs
    all_goals rw [switch_workspace] at h
    all_goals simp only [connect, hr] at h
    · exact Except.noConfusion h
    · rcases hs : allSuccess rs
      all_goals rw [hs] at h
      all_goals simp only [if_true, if_false, Bool.false_eq_true, if_neg, if_pos] at h
      all_goals exact content_shape_aux (Except.ok.inj h)
  · intro c conn run r h
    rcases conn with e | u
    · exact Except.noConfusion h
    rcases hr : run (focus_window_command c) with e | rs
    all_goals rw [focus_window] at h
    all_goals simp only [connect, hr] at h
    · exact Except.noConfusion h
    · rcases hs : allSuccess rs
      all_goals rw [hs] at h
      all_goals simp only [if_true, if_false, Bool.false_eq_true, if_neg, if_pos] at h
      all_goals exact content_shape_aux (Except.ok.inj h)
  · intro ws conn run r h
    rcases conn with e | u
    · exact Except.noConfusion h
    rcases hr : run (move_to_workspace_command ws) with e | rs
    all_goals rw [move_to_workspace] at h
    all_goals simp only [connect, hr] at h
    · exact Except.noConfusion h
    · rcases hs : allSuccess rs
      all_goals rw [hs] at h
      all_goals simp only [if_true, if_false, Bool.false_eq_true, if_neg, if_pos] at h
      all_goals exact content_shape_aux (Except.ok.inj h)
  · intro cmd conn run ser r h
    rcases conn with e | u
    · exact Except.noConfusion h
    rcases hr : run cmd with e | rs
    all_goals rw [run_command] at h
    all_goals simp only [connect, hr] at h
    · exact Except.noConfusion h
    rcases hs : ser rs with e | j
    all_goals rw [hs] at h
    · exact Except.noConfusion h
    · exact content_shape_aux (Except.ok.inj h)
  · intro cmd conn run r h
    rcases conn with e | u
    · exact Except.noConfusion h
    rcases hr : run (exec_command cmd) with e | rs
    all_goals rw [exec] at h
    all_goals simp only [connect, hr] at h
    · exact Except.noConfusion h
    · rcases hs : allSuccess rs
      all_goals rw [hs] at h
      all_goals simp only [if_true, if_false, Bool.false_eq_true, if_neg, if_pos] at h
      all_goals exact content_shape_aux (Except.ok.inj h)
  · intro conn run r h
    rcases conn with e | u
    · exact Except.noConfusion h
    rcases hr : run "kill" with e | rs
    all_goals rw [kill] at h
    all_goals simp only [connect, hr] at h
    · exact Except.noConfusion h
    · rcases hs : allSuccess rs
      all_goals rw [hs] at h
      all_goals simp only [if_true, if_false, Bool.false_eq_true, if_neg, if_pos] at h
      all_goals exact content_shape_aux (Except.ok.inj h)
  · intro c conn run r h
    rcases conn with e | u
    · exact Except.noConfusion h
    rcases hr : run (kill_window_command c) with e | rs
    all_goals rw [kill_window] at h
    all_goals simp only [connect, hr] at h
    · exact Except.noConfusion h
    · rcases hs : allSuccess rs
      all_goals rw [hs] at h
      all_goals simp only [if_true, if_false, Bool.false_eq_true, if_neg, if_pos] at h
      all_goals exact content_shape_aux (Except.ok.inj h)
  · intro conn run r h
    rcases conn with e | u
    · exact Except.noConfusion h
    rcases hr : run "fullscreen toggle" with e | rs
    all_goals rw [fullscreen] at h
    all_goals simp only [connect, hr] at h
    · exact Except.noConfusion h
    · rcases hs : allSuccess rs
      all_goals rw [hs] at h
      all_goals simp only [if_true, if_false, Bool.false_eq_true, if_neg, if_pos] at h
      all_goals exact content_shape_aux (Except.ok.inj h)

/-- Witness for `single_text_content` at a concrete successful call. -/
theorem single_text_content_witness :
    ∃ s, (CallToolResult.success
      [Content.text "Switched to workspace 'web'"]).content =
        [Content.text s] :=
  single_text_content.2.2.1 "web" (.ok ()) (fun _ => .ok [])
    (CallToolResult.success [Content.text "Switched to workspace 'web'"]) rfl

/-- C10: for every normalized command operation, when every sub-result of
the native reply succeeds, the output is a fixed function of the request
parameter alone — any all-success result list (whatever its length, and
whatever error texts ride on succeeding sub-results) produces the same
fixed success message, so no native error text can appear in it. -/
theorem success_message_param_only :
    (∀ ws rs, allSuccess rs = true →
      switch_workspace ws (.ok ()) (fun _ => .ok rs) =
        .ok (CallToolResult.success
          [Content.text ("Switched to workspace '" ++ ws ++ "'")])) ∧
    (∀ c rs, allSuccess rs = true →
      focus_window c (.ok ()) (fun _ => .ok rs) =
        .ok (CallToolResult.success
          [Content.text ("Focused window matching '" ++ c ++ "'")])) ∧
    (∀ ws rs, allSuccess rs = true →
      move_to_workspace ws (.ok ()) (fun _ => .ok rs) =
        .ok (CallToolResult.success
          [Content.text ("Moved window to workspace '" ++ ws ++ "'")])) ∧
    (∀ cmd rs, allSuccess rs = true →
      exec cmd (.ok ()) (fun _ => .ok rs) =
        .ok (CallToolResult.success
          [Content.text ("Launched '" ++ cmd ++ "'")])) ∧
    (∀ rs, allSuccess rs = true →
      kill (.ok ()) (fun _ => .ok rs) =
        .ok (CallToolResult.success [Content.text "Killed focused window"])) ∧
    (∀ c rs, allSuccess rs = true →
      kill_window c (.ok ()) (fun _ => .ok rs) =
        .ok (CallToolResult.success
          [Content.text ("Killed window matching '" ++ c ++ "'")])) ∧
    (∀ rs, allSuccess rs = true →
      fullscreen (.ok ()) (fun _ => .ok rs) =
        .ok (CallToolResult.success [Content.text "Toggled fullscreen"])) := by
  refine ⟨?_, ?_, ?_, ?_, ?_, ?_, ?_⟩
  · intro ws rs h; simp [switch_workspace, connect, h]
  · intro c rs h; simp [focus_window, connect, h]
  · intro ws rs h; simp [move_to_workspace, connect, h]
  · intro cmd rs h; simp [exec, connect, h]
  · intro rs h; simp [kill, connect, h]
  · intro c rs h; simp [kill_window, connect, h]
  · intro rs h; simp [fullscreen, connect, h]

/-- Witness for `success_message_param_only` at an all-success reply whose
succeeding sub-result carries an error text, which must not leak. -/
theorem success_message_param_only_witness :
    switch_workspace "web" (.ok ())
      (fun _ => .ok [⟨true, some "secret"⟩]) =
      .ok (CallToolResult.success
        [Content.text ("Switched to workspace '" ++ "web" ++ "'")]) :=
  success_message_param_only.1 "web" [⟨true, some "secret"⟩] (by decide)

end RmcpI3
